import Mathlib

/-!
Shallow embedding of `SmartGadget.py` (Sensirion SmartHumiGadget BLE driver)
and proofs about its behaviour.

Conventions of the embedding:
* Python byte strings become tuples of natural numbers, each byte `< 256`.
* Python floats become rationals (`ℚ`); IEEE-754 special values (inf/NaN)
  are represented by `Option.none` in the float decoder.
* Python dicts with a fixed key set become Lean structures whose fields are
  the keys, in the order the source zips them.
* Python exceptions become explicit error values (`PyErr`); a raising call
  returns the state as it stands at the point of the raise together with
  the error, since the caller of the Python method observes exactly that.
* The pygatt transport is abstracted by a behaviour record `Beh` saying
  which transport calls succeed, and every operation also returns the list
  of transport calls it attempted, in order.
-/

/-- Python exceptions that the modelled code paths can raise. -/
inductive PyErr where
  | attributeError
  | valueError
  | btleError
deriving DecidableEq, Repr

/-- A transport-level (pygatt) call attempted by the gadget code. -/
inductive TCall where
  | subscribeSrv (uuid : String)
  | unsubscribeSrv (uuid : String)
  | connectT (address : String) (addressType : String)
  | disconnectT
deriving DecidableEq, Repr

/-! ## Binary codec

`struct.unpack`/`struct.pack` calls of the source, on explicit bytes. -/

/-- Two's-complement reading of a 16-bit pattern, as done by `struct.unpack
with format 'h'`. -/
def toInt16 (n : ℕ) : ℤ :=
  if n < 32768 then (n : ℤ) else (n : ℤ) - 65536

/-- Two's-complement reading of a 32-bit pattern, as done by `struct.unpack
with format 'i'`. -/
def toInt32 (n : ℕ) : ℤ :=
  if n < 2147483648 then (n : ℤ) else (n : ℤ) - 4294967296

/-- Embeds `struct.unpack` with format `'<i'` on the four bytes `b0 b1 b2 b3`
(little endian): used by the `log_interval` getter. -/
def decodeInt32le (b0 b1 b2 b3 : ℕ) : ℤ :=
  toInt32 (b0 + 256 * b1 + 65536 * b2 + 16777216 * b3)

/-- Embeds `struct.pack` with format `'<i'`, producing the four bytes little
endian: used by the `log_interval` setter. -/
def encodeInt32le (x : ℤ) : ℕ × ℕ × ℕ × ℕ :=
  let m := (x % 4294967296).toNat
  (m % 256, m / 256 % 256, m / 65536 % 256, m / 16777216 % 256)

/-- Embeds `struct.unpack` with format `'<f'` on four bytes, little endian:
IEEE-754 binary32. The value is returned exactly as a rational; an
exponent field of 255 (infinity / NaN) has no rational value and yields
`none`. -/
def decodeFloat32le (b0 b1 b2 b3 : ℕ) : Option ℚ :=
  let bits := b0 + 256 * b1 + 65536 * b2 + 16777216 * b3
  let sign : ℚ := if bits / 2147483648 % 2 = 1 then -1 else 1
  let expo := bits / 8388608 % 256
  let mant := bits % 8388608
  if expo = 255 then none
  else if expo = 0 then some (sign * (mant : ℚ) / 2 ^ 149)
  else some (sign * ((8388608 + mant : ℕ) : ℚ) * 2 ^ expo / 2 ^ 150)

namespace SHTC1

/-- Embeds `SHTC1HumiGadget._unpack_fixp`: `struct.unpack` with format `'<hh'`,
then each value divided by `100.` — two signed little-endian 16-bit
integers in hundredths. -/
def unpack_fixp (b0 b1 b2 b3 : ℕ) : ℚ × ℚ :=
  ((toInt16 (b0 + 256 * b1) : ℚ) / 100, (toInt16 (b2 + 256 * b3) : ℚ) / 100)

end SHTC1

/-- Modelled from the spec: `pack_i16le`, packing two int16 values as four
little-endian bytes (two's complement), the inverse direction of
`decode_fixed_pair_le` in the spec's round-trip property. The source
itself only ever unpacks this format. -/
def packI16le (x y : ℤ) : ℕ × ℕ × ℕ × ℕ :=
  let mx := (x % 65536).toNat
  let my := (y % 65536).toNat
  (mx % 256, mx / 256, my % 256, my / 256)

/-! ## Data model

Readings are the dicts built by `dict(zip(KEYS, vals))` for the fixed key
lists of the source; since the key sets are fixed, each becomes a
structure whose field order is the key-list order. -/

namespace HumiGadget

/-- Key list `HumiGadget.RHT_FORMAT = ['time', 'temperature', 'humidity']`: the key
order used when zipping a composed reading. -/
structure RhtReading where
  time : ℚ
  temperature : ℚ
  humidity : ℚ
deriving DecidableEq, Repr

/-- The `TEMP_FORMAT = ['time', 'temperature']` reading, as returned by the
`temperature` property. -/
structure TempReading where
  time : ℚ
  temperature : ℚ
deriving DecidableEq, Repr

/-- The `HUMI_FORMAT = ['time', 'humidity']` reading, as returned by the
`humidity` property. -/
structure HumiReading where
  time : ℚ
  humidity : ℚ
deriving DecidableEq, Repr

/-- Constant `HumiGadget.ADDRESS_TYPE = 'random'` (inherited by `SHT3xHumiGadget`). -/
def ADDRESS_TYPE : String := "random"

/-- Embeds `HumiGadget.humidity_and_temperature`: reads `self.temperature`, then
`self.humidity`, returning `None` as soon as either sub-read is `None`;
otherwise returns
`dict(zip(self.RHT_FORMAT, (humi['time'], humi['humidity'], temp['temperature'])))`.
Because `RHT_FORMAT` is `['time', 'temperature', 'humidity']`, the zip
binds the key `'temperature'` to `humi['humidity']` and the key
`'humidity'` to `temp['temperature']`. -/
def humidity_and_temperature (temp : Option TempReading) (humi : Option HumiReading) :
    Option RhtReading :=
  match temp with
  | none => none
  | some t =>
    match humi with
    | none => none
    | some h => some ⟨h.time, h.humidity, t.temperature⟩

end HumiGadget

/-- The partial-fusion buffer `self._current_rht` of `SHT3xHumiGadget`:
a dict whose possible keys are `'time'`, `'temperature'`, `'humidity'` and
the fallback key `'value'`; an absent key is `none`. -/
structure RhtBuf where
  time : Option ℚ
  temperature : Option ℚ
  humidity : Option ℚ
  value : Option ℚ
deriving DecidableEq, Repr

/-- The empty dict `{}`. -/
def RhtBuf.empty : RhtBuf := ⟨none, none, none, none⟩

/-- Which transport calls succeed: the modelled behaviour of the pygatt
connection object backing `subscribe_service`, `unsubscribe_service` and
`_con.disconnect()`. `true` means the call returns normally, `false`
means it raises (modelled as `PyErr.btleError`). -/
structure Beh where
  subOk : String → Bool
  unsubOk : String → Bool
  disconOk : Bool

/-- The behaviour in which every transport call succeeds. -/
def okBeh : Beh := ⟨fun _ => true, fun _ => true, true⟩

/-- Result of running one gadget method: the object state when the method
returns (or at the point of the raise), the transport calls attempted in
order, and the exception propagated to the caller, if any. -/
structure Res (σ : Type) where
  st : σ
  calls : List TCall
  err : Option PyErr
deriving DecidableEq, Repr

/-! ## SHT3xHumiGadget (modern variant) -/

namespace SHT3x

def TEMP_SRVC_UUID : String := "00002234-b38d-4985-720e-0f993a68ee41"
def HUMI_SRVC_UUID : String := "00001234-b38d-4985-720e-0f993a68ee41"
def TEMP_NOTI_UUID : String := "00002235-b38d-4985-720e-0f993a68ee41"
def HUMI_NOTI_UUID : String := "00001235-b38d-4985-720e-0f993a68ee41"

/-- Object state of an `SHT3xHumiGadget`: its (immutable) address, the
truthiness of `self._con`, the `self.rht_callbacks` list (callbacks are
identified by Python object identity, modelled as ℕ), the partial-fusion
buffer `self._current_rht`, and whether the transport currently holds a
notification subscription for the temperature / humidity characteristic
(the effect of past successful `subscribe`/`unsubscribe` transport calls). -/
structure State where
  address : String
  con : Bool
  rht_callbacks : List ℕ
  current_rht : RhtBuf
  subT : Bool
  subH : Bool
deriving DecidableEq, Repr

/-- A freshly constructed `SHT3xHumiGadget(address)`: `self._con = None`,
`self.rht_callbacks = []`, `self._current_rht = {}`; nothing subscribed. -/
def init (address : String) : State :=
  ⟨address, false, [], RhtBuf.empty, false, false⟩

/-- Embeds `HumiGadget.connect` (inherited): a no-op when `self._con` is truthy;
otherwise sets `self.rht_callbacks = []` and opens the transport
connection at `self.address` with the class's `ADDRESS_TYPE`. The
partial-fusion buffer `self._current_rht` is not touched. (The source
reads the module-global name `ble` here rather than `self.ble`; the
adapter itself is abstracted into the emitted `TCall.connectT`.) -/
def connect (st : State) : Res State :=
  if st.con then ⟨st, [], none⟩
  else ⟨{st with rht_callbacks := [], con := true},
        [.connectT st.address HumiGadget.ADDRESS_TYPE], none⟩

/-- Embeds `SHT3xHumiGadget.subscribe`: appends `callback` to
`self.rht_callbacks` unless already present; if the list then has length
one, resets `self._current_rht = {}` and subscribes the temperature and
humidity notification characteristics. Each `subscribe_service` call goes
through `self._con.subscribe`, so it raises `AttributeError` when
`self._con` is `None`, and may raise a transport error per `beh`. -/
def subscribe (beh : Beh) (st : State) (cb : ℕ) : Res State :=
  let cbs := if cb ∈ st.rht_callbacks then st.rht_callbacks else st.rht_callbacks ++ [cb]
  let st1 : State := {st with rht_callbacks := cbs}
  if cbs.length = 1 then
    let st2 : State := {st1 with current_rht := RhtBuf.empty}
    if ¬ st2.con then ⟨st2, [], some .attributeError⟩
    else if beh.subOk TEMP_NOTI_UUID then
      let st3 : State := {st2 with subT := true}
      if beh.subOk HUMI_NOTI_UUID then
        ⟨{st3 with subH := true},
         [.subscribeSrv TEMP_NOTI_UUID, .subscribeSrv HUMI_NOTI_UUID], none⟩
      else ⟨st3, [.subscribeSrv TEMP_NOTI_UUID, .subscribeSrv HUMI_NOTI_UUID],
            some .btleError⟩
    else ⟨st2, [.subscribeSrv TEMP_NOTI_UUID], some .btleError⟩
  else ⟨st1, [], none⟩

/-- Embeds `SHT3xHumiGadget.unsubscribe`: returns at once when
`self.rht_callbacks` is empty; otherwise removes the given callback
(`list.remove`, raising `ValueError` when absent and leaving the list
unchanged) or clears the whole list when `callback is None`; when the
list has become empty, unsubscribes the two notification characteristics
through the transport. -/
def unsubscribe (beh : Beh) (st : State) (cb? : Option ℕ) : Res State :=
  if st.rht_callbacks.isEmpty then ⟨st, [], none⟩
  else
    let removed : Option (List ℕ) :=
      match cb? with
      | some cb =>
        if cb ∈ st.rht_callbacks then some (st.rht_callbacks.erase cb) else none
      | none => some []
    match removed with
    | none => ⟨st, [], some .valueError⟩
    | some cbs =>
      let st1 : State := {st with rht_callbacks := cbs}
      if cbs.isEmpty then
        if ¬ st1.con then ⟨st1, [], some .attributeError⟩
        else if beh.unsubOk TEMP_NOTI_UUID then
          let st2 : State := {st1 with subT := false}
          if beh.unsubOk HUMI_NOTI_UUID then
            ⟨{st2 with subH := false},
             [.unsubscribeSrv TEMP_NOTI_UUID, .unsubscribeSrv HUMI_NOTI_UUID], none⟩
          else ⟨st2, [.unsubscribeSrv TEMP_NOTI_UUID, .unsubscribeSrv HUMI_NOTI_UUID],
                some .btleError⟩
        else ⟨st1, [.unsubscribeSrv TEMP_NOTI_UUID], some .btleError⟩
      else ⟨st1, [], none⟩

/-- Embeds `HumiGadget.disconnect` (inherited): when `self._con` is truthy, first
calls `self.unsubscribe()` if any callbacks are registered (an exception
from it propagates, skipping the rest), then `self._con.disconnect()`
(likewise propagating on failure); only if both succeeded does execution
reach `self._con = None; self.rht_callbacks = []`. When `self._con` is
already falsy it just clears both. -/
def disconnect (beh : Beh) (st : State) : Res State :=
  if st.con then
    let r1 : Res State :=
      if st.rht_callbacks.isEmpty then ⟨st, [], none⟩
      else unsubscribe beh st none
    match r1.err with
    | some e => ⟨r1.st, r1.calls, some e⟩
    | none =>
      if beh.disconOk then
        ⟨{r1.st with con := false, rht_callbacks := []}, r1.calls ++ [.disconnectT], none⟩
      else ⟨r1.st, r1.calls ++ [.disconnectT], some .btleError⟩
  else ⟨{st with con := false, rht_callbacks := []}, [], none⟩

/-- Embeds `SHT3xHumiGadget._on_float_value`, with `struct.unpack` of
format `'<f'` already applied (`val`), and the notification timestamp `ts`.
The handle is classified against `self._con.get_handle` of the two
service UUIDs (abstracted as `getHandle`), defaulting to the key
`'value'`. The completeness test of the source is
`'temperature' in self._current_rht and 'humidity' in self._current_rhty`:
the attribute `_current_rhty` is never defined anywhere in the class (the
constructor only defines `_current_rht`), so whenever the first conjunct
is true the `and` evaluates its second operand and raises
`AttributeError`; the dispatch loop and the buffer reset below it are
unreachable. When the first conjunct is false, `and` short-circuits and
the method returns having only updated the buffer. -/
def onFloatValue (getHandle : String → ℕ) (st : State) (handle : ℕ) (val ts : ℚ) :
    Except PyErr (State × List (ℕ × RhtBuf)) :=
  let key : String :=
    if handle = getHandle TEMP_SRVC_UUID then "temperature"
    else if handle = getHandle HUMI_SRVC_UUID then "humidity"
    else "value"
  let buf0 : RhtBuf := {st.current_rht with time := some ts}
  let buf : RhtBuf :=
    if key = "temperature" then {buf0 with temperature := some val}
    else if key = "humidity" then {buf0 with humidity := some val}
    else {buf0 with value := some val}
  if buf.temperature.isSome then Except.error .attributeError
  else Except.ok ({st with current_rht := buf}, [])

end SHT3x

/-! ## SHTC1HumiGadget (legacy variant) -/

namespace SHTC1

def RHT_CHAR_UUID : String := "0000aa21-0000-1000-8000-00805f9b34fb"

/-- Constant `SHTC1HumiGadget.ADDRESS_TYPE = 'public'` (overriding the base
class's `'random'`). -/
def ADDRESS_TYPE : String := "public"

/-- Object state of an `SHTC1HumiGadget`: address, truthiness of
`self._con`, the `self.rht_callbacks` list, and whether the transport
holds a subscription on the combined RHT characteristic. The class has
no partial-fusion buffer. -/
structure State where
  address : String
  con : Bool
  rht_callbacks : List ℕ
  subR : Bool
deriving DecidableEq, Repr

/-- A freshly constructed `SHTC1HumiGadget(address)`. -/
def init (address : String) : State := ⟨address, false, [], false⟩

/-- Embeds `HumiGadget.connect` (inherited), with this class's `ADDRESS_TYPE`. -/
def connect (st : State) : Res State :=
  if st.con then ⟨st, [], none⟩
  else ⟨{st with rht_callbacks := [], con := true},
        [.connectT st.address ADDRESS_TYPE], none⟩

/-- Embeds `SHTC1HumiGadget.subscribe`: like the SHT3x variant but with a single
underlying characteristic and no fusion buffer to reset. -/
def subscribe (beh : Beh) (st : State) (cb : ℕ) : Res State :=
  let cbs := if cb ∈ st.rht_callbacks then st.rht_callbacks else st.rht_callbacks ++ [cb]
  let st1 : State := {st with rht_callbacks := cbs}
  if cbs.length = 1 then
    if ¬ st1.con then ⟨st1, [], some .attributeError⟩
    else if beh.subOk RHT_CHAR_UUID then
      ⟨{st1 with subR := true}, [.subscribeSrv RHT_CHAR_UUID], none⟩
    else ⟨st1, [.subscribeSrv RHT_CHAR_UUID], some .btleError⟩
  else ⟨st1, [], none⟩

/-- Embeds `SHTC1HumiGadget.unsubscribe`: like the SHT3x variant but with a
single underlying characteristic. -/
def unsubscribe (beh : Beh) (st : State) (cb? : Option ℕ) : Res State :=
  if st.rht_callbacks.isEmpty then ⟨st, [], none⟩
  else
    let removed : Option (List ℕ) :=
      match cb? with
      | some cb =>
        if cb ∈ st.rht_callbacks then some (st.rht_callbacks.erase cb) else none
      | none => some []
    match removed with
    | none => ⟨st, [], some .valueError⟩
    | some cbs =>
      let st1 : State := {st with rht_callbacks := cbs}
      if cbs.isEmpty then
        if ¬ st1.con then ⟨st1, [], some .attributeError⟩
        else if beh.unsubOk RHT_CHAR_UUID then
          ⟨{st1 with subR := false}, [.unsubscribeSrv RHT_CHAR_UUID], none⟩
        else ⟨st1, [.unsubscribeSrv RHT_CHAR_UUID], some .btleError⟩
      else ⟨st1, [], none⟩

/-- Embeds `HumiGadget.disconnect` (inherited), dispatching to this class's
`unsubscribe`. -/
def disconnect (beh : Beh) (st : State) : Res State :=
  if st.con then
    let r1 : Res State :=
      if st.rht_callbacks.isEmpty then ⟨st, [], none⟩
      else unsubscribe beh st none
    match r1.err with
    | some e => ⟨r1.st, r1.calls, some e⟩
    | none =>
      if beh.disconOk then
        ⟨{r1.st with con := false, rht_callbacks := []}, r1.calls ++ [.disconnectT], none⟩
      else ⟨r1.st, r1.calls ++ [.disconnectT], some .btleError⟩
  else ⟨{st with con := false, rht_callbacks := []}, [], none⟩

/-- Embeds `SHTC1HumiGadget._on_rht_value`: builds
`dict(zip(self.RHT_FORMAT, [time.time()] + list(self._unpack_fixp(data))))`
in a local variable and calls every registered callback with it. The
object state is not touched, so only the dispatched list is returned:
one invocation per registered callback, in registration order. -/
def onRhtValue (st : State) (b0 b1 b2 b3 : ℕ) (ts : ℚ) :
    List (ℕ × HumiGadget.RhtReading) :=
  let th := unpack_fixp b0 b1 b2 b3
  let cur : HumiGadget.RhtReading := ⟨ts, th.1, th.2⟩
  st.rht_callbacks.map fun cb => (cb, cur)

end SHTC1

/-! ## Sequences of public operations

Used for the reachability invariants: a client may call `connect`,
`disconnect`, `subscribe` and `unsubscribe` in any order after
construction. -/

/-- One public lifecycle operation on a gadget. -/
inductive GOp where
  | connectOp
  | disconnectOp
  | subscribeOp (cb : ℕ)
  | unsubscribeOp (cb? : Option ℕ)
deriving DecidableEq, Repr

namespace SHT3x

/-- Apply one public operation to an SHT3x gadget state (keeping only the
state component). -/
def step (beh : Beh) (st : State) (op : GOp) : State :=
  match op with
  | .connectOp => (connect st).st
  | .disconnectOp => (disconnect beh st).st
  | .subscribeOp cb => (subscribe beh st cb).st
  | .unsubscribeOp cb? => (unsubscribe beh st cb?).st

/-- Run a list of public operations from a state. -/
def run (beh : Beh) (st : State) (ops : List GOp) : State :=
  ops.foldl (step beh) st

end SHT3x

namespace SHTC1

/-- Apply one public operation to an SHTC1 gadget state. -/
def step (beh : Beh) (st : State) (op : GOp) : State :=
  match op with
  | .connectOp => (connect st).st
  | .disconnectOp => (disconnect beh st).st
  | .subscribeOp cb => (subscribe beh st cb).st
  | .unsubscribeOp cb? => (unsubscribe beh st cb?).st

/-- Run a list of public operations from a state. -/
def run (beh : Beh) (st : State) (ops : List GOp) : State :=
  ops.foldl (step beh) st

end SHTC1

/-! ## Subscription sessions

For the transport-refcount invariant: within one connected session a
client calls only `subscribe`/`unsubscribe` (with the transport healthy,
i.e. behaviour `okBeh`). -/

/-- One subscription-phase operation. -/
inductive SubOp where
  | sub (cb : ℕ)
  | unsub (cb? : Option ℕ)
deriving DecidableEq, Repr

namespace SHT3x

/-- Apply one subscription-phase operation with a healthy transport. -/
def stepSub (st : State) (op : SubOp) : State :=
  match op with
  | .sub cb => (subscribe okBeh st cb).st
  | .unsub cb? => (unsubscribe okBeh st cb?).st

/-- Run a subscription session. -/
def runSub (st : State) (ops : List SubOp) : State :=
  ops.foldl stepSub st

/-- The spec's Subscription-Set invariant for the modern variant: the
gadget is connected, and each of the two notification characteristics is
subscribed at the transport exactly when the callback list is
nonempty. -/
def SubInv (st : State) : Prop :=
  st.con = true ∧ st.subT = !st.rht_callbacks.isEmpty ∧
  st.subH = !st.rht_callbacks.isEmpty

end SHT3x

namespace SHTC1

/-- Apply one subscription-phase operation with a healthy transport. -/
def stepSub (st : State) (op : SubOp) : State :=
  match op with
  | .sub cb => (subscribe okBeh st cb).st
  | .unsub cb? => (unsubscribe okBeh st cb?).st

/-- Run a subscription session. -/
def runSub (st : State) (ops : List SubOp) : State :=
  ops.foldl stepSub st

/-- The spec's Subscription-Set invariant for the legacy variant. -/
def SubInv (st : State) : Prop :=
  st.con = true ∧ st.subR = !st.rht_callbacks.isEmpty

end SHTC1

/-- A transport behaviour whose `unsubscribe` calls raise. -/
def failingUnsubBeh : Beh := ⟨fun _ => true, fun _ => false, true⟩

/-! ## Theorems -/

/-- Claim C1 (code bug): on the modern variant with a subscribed callback
and an empty fusion buffer, the temperature notification carrying the
little-endian float bytes `00 00 20 41` (which indeed decode to 10.0)
does not begin a fusion cycle completed by the humidity notification
`00 00 48 42` (= 50.0): `_on_float_value` raises `AttributeError` as soon
as the key `'temperature'` is in the buffer, because its completeness
test reads the undefined attribute `_current_rhty` (a typo for
`_current_rht`), so no composed callback invocation is ever dispatched. -/
theorem c1_on_float_value_attribute_error :
    decodeFloat32le 0 0 32 65 = some 10 ∧
    decodeFloat32le 0 0 72 66 = some 50 ∧
    SHT3x.onFloatValue
      (fun u => if u = SHT3x.TEMP_SRVC_UUID then 1 else
                if u = SHT3x.HUMI_SRVC_UUID then 2 else 0)
      ⟨"cc:bb:aa", true, [5], RhtBuf.empty, true, true⟩ 1 10 100
      = Except.error PyErr.attributeError := by
  refine ⟨by norm_num [decodeFloat32le], by norm_num [decodeFloat32le], ?_⟩
  rfl

/-- Claim C2 (code bug): with a successful temperature sub-read
`{time: 1, temperature: 10}` followed by a successful humidity sub-read
`{time: 2, humidity: 50}`, `humidity_and_temperature` returns
`{time: 2, temperature: 50, humidity: 10}` — the time is the humidity
sub-read's timestamp as claimed, but the temperature and humidity values
are swapped, because the tuple `(humi['time'], humi['humidity'],
temp['temperature'])` is zipped against `RHT_FORMAT =
['time', 'temperature', 'humidity']`. -/
theorem c2_rht_fields_swapped :
    HumiGadget.humidity_and_temperature (some ⟨1, 10⟩) (some ⟨2, 50⟩)
      = some ⟨2, 50, 10⟩ := rfl

/-- Claim C5: the composed reading fails atomically — if the first
(temperature) sub-read returns `None`, or the second (humidity) sub-read
returns `None` after a successful first one, `humidity_and_temperature`
returns `None`; no partial reading is ever produced. -/
theorem c5_compose_fails_atomically :
    (∀ humi, HumiGadget.humidity_and_temperature none humi = none) ∧
    (∀ temp, HumiGadget.humidity_and_temperature temp none = none) := by
  constructor
  · intro humi; rfl
  · intro temp; cases temp <;> rfl

/-- Packing then unpacking one int16 through two little-endian bytes is
the identity on `[-32768, 32768)`. -/
lemma toInt16_two_bytes (x : ℤ) (h1 : -32768 ≤ x) (h2 : x < 32768) :
    toInt16 ((x % 65536).toNat % 256 + 256 * ((x % 65536).toNat / 256)) = x := by
  unfold toInt16
  split <;> omega

/-- Claim C7: `_unpack_fixp` inverts the packing of two int16 values in
hundredths (temperature first, humidity second), and a single legacy
combined notification whose bytes decode to `(2550, 4820)` dispatches to
every registered callback exactly once, with the reading
`{time: ts, temperature: 25.5, humidity: 48.2}`, touching no
partial-fusion state (the handler builds the dict in a local and leaves
the object state alone by construction). -/
theorem c7_fixed_pair_decode (x y : ℤ) (hx1 : -32768 ≤ x) (hx2 : x < 32768)
    (hy1 : -32768 ≤ y) (hy2 : y < 32768) (st : SHTC1.State) (ts : ℚ) :
    SHTC1.unpack_fixp (packI16le x y).1 (packI16le x y).2.1
      (packI16le x y).2.2.1 (packI16le x y).2.2.2 = ((x : ℚ) / 100, (y : ℚ) / 100) ∧
    SHTC1.onRhtValue st 246 9 212 18 ts
      = st.rht_callbacks.map (fun cb => (cb, ⟨ts, 25.5, 48.2⟩)) := by
  constructor
  · simp only [SHTC1.unpack_fixp, packI16le]
    rw [toInt16_two_bytes x hx1 hx2, toInt16_two_bytes y hy1 hy2]
  · have hdec : SHTC1.unpack_fixp 246 9 212 18 = (25.5, 48.2) := by
      norm_num [SHTC1.unpack_fixp, toInt16]
    simp [SHTC1.onRhtValue, hdec]

/-- Witness for C7 at the spec's own example `(2550, 4820)`, with one
registered callback. -/
theorem c7_fixed_pair_decode_witness :
    ((-32768 : ℤ) ≤ 2550 ∧ (2550 : ℤ) < 32768 ∧
     (-32768 : ℤ) ≤ 4820 ∧ (4820 : ℤ) < 32768) ∧
    (SHTC1.unpack_fixp (packI16le 2550 4820).1 (packI16le 2550 4820).2.1
       (packI16le 2550 4820).2.2.1 (packI16le 2550 4820).2.2.2
       = ((2550 : ℚ) / 100, (4820 : ℚ) / 100) ∧
     SHTC1.onRhtValue ⟨"cc:bb:aa", true, [0], true⟩ 246 9 212 18 7
       = [(0, ⟨7, 25.5, 48.2⟩)]) := by
  refine ⟨by norm_num, ?_⟩
  have h := c7_fixed_pair_decode 2550 4820 (by norm_num) (by norm_num)
    (by norm_num) (by norm_num) ⟨"cc:bb:aa", true, [0], true⟩ 7
  exact ⟨h.1, by rw [h.2]; rfl⟩

/-- Claim C8: for every well-formed 4-byte buffer, packing the int32
decoded by the `log_interval` getter (`struct.unpack with format '<i'`)
with the setter's `struct.pack with format '<i'` reproduces the buffer
byte for byte. -/
theorem c8_int32_roundtrip (b0 b1 b2 b3 : ℕ) (h0 : b0 < 256) (h1 : b1 < 256)
    (h2 : b2 < 256) (h3 : b3 < 256) :
    encodeInt32le (decodeInt32le b0 b1 b2 b3) = (b0, b1, b2, b3) := by
  simp only [encodeInt32le, decodeInt32le, toInt32]
  split <;> simp only [Prod.mk.injEq] <;> refine ⟨?_, ?_, ?_, ?_⟩ <;> omega

/-- A nonempty list is not `isEmpty`. -/
lemma isEmpty_eq_false_of_mem {α : Type} {a : α} {l : List α} (h : a ∈ l) :
    l.isEmpty = false := by
  cases l with
  | nil => cases h
  | cons b t => rfl

/-- Appending one element never yields the empty list. -/
lemma isEmpty_append_singleton {α : Type} (l : List α) (a : α) :
    (l ++ [a]).isEmpty = false := by
  cases l <;> rfl

/-- One subscription-phase operation preserves the Subscription-Set
invariant of the modern variant. -/
lemma sht3x_subInv_stepSub (st : SHT3x.State) (op : SubOp) (h : SHT3x.SubInv st) :
    SHT3x.SubInv (SHT3x.stepSub st op) := by
  obtain ⟨addr, con, cbs, buf, sT, sH⟩ := st
  obtain ⟨hcon, hT, hH⟩ := h
  simp only at hcon hT hH
  subst hcon hT hH
  cases op with
  | sub cb =>
    by_cases hmem : cb ∈ cbs
    · have hne := isEmpty_eq_false_of_mem hmem
      simp only [SHT3x.stepSub, SHT3x.subscribe, okBeh, SHT3x.SubInv, hmem, if_true]
      split_ifs <;> simp_all
    · simp only [SHT3x.stepSub, SHT3x.subscribe, okBeh, SHT3x.SubInv, hmem, if_false]
      split_ifs <;> simp_all [isEmpty_append_singleton]
  | unsub cb? =>
    cases cb? with
    | none =>
      simp only [SHT3x.stepSub, SHT3x.unsubscribe, okBeh, SHT3x.SubInv]
      split_ifs <;> simp_all
    | some cb =>
      by_cases hmem : cb ∈ cbs
      · have hne := isEmpty_eq_false_of_mem hmem
        simp only [SHT3x.stepSub, SHT3x.unsubscribe, okBeh, SHT3x.SubInv, hmem, if_true,
          hne]
        split_ifs <;> simp_all
      · simp only [SHT3x.stepSub, SHT3x.unsubscribe, okBeh, SHT3x.SubInv, hmem, if_false]
        split_ifs <;> simp_all

/-- One subscription-phase operation preserves the Subscription-Set
invariant of the legacy variant. -/
lemma shtc1_subInv_stepSub (st : SHTC1.State) (op : SubOp) (h : SHTC1.SubInv st) :
    SHTC1.SubInv (SHTC1.stepSub st op) := by
  obtain ⟨addr, con, cbs, sR⟩ := st
  obtain ⟨hcon, hR⟩ := h
  simp only at hcon hR
  subst hcon hR
  cases op with
  | sub cb =>
    by_cases hmem : cb ∈ cbs
    · have hne := isEmpty_eq_false_of_mem hmem
      simp only [SHTC1.stepSub, SHTC1.subscribe, okBeh, SHTC1.SubInv, hmem, if_true]
      split_ifs <;> simp_all
    · simp only [SHTC1.stepSub, SHTC1.subscribe, okBeh, SHTC1.SubInv, hmem, if_false]
      split_ifs <;> simp_all [isEmpty_append_singleton]
  | unsub cb? =>
    cases cb? with
    | none =>
      simp only [SHTC1.stepSub, SHTC1.unsubscribe, okBeh, SHTC1.SubInv]
      split_ifs <;> simp_all
    | some cb =>
      by_cases hmem : cb ∈ cbs
      · have hne := isEmpty_eq_false_of_mem hmem
        simp only [SHTC1.stepSub, SHTC1.unsubscribe, okBeh, SHTC1.SubInv, hmem, if_true,
          hne]
        split_ifs <;> simp_all
      · simp only [SHTC1.stepSub, SHTC1.unsubscribe, okBeh, SHTC1.SubInv, hmem, if_false]
        split_ifs <;> simp_all

/-- Claim C4: the Subscription-Set invariant — each notification
characteristic is subscribed at the transport exactly when the local
callback list is nonempty — is preserved by every subscription session
on either variant, and in the two-callback scenario the transport sees
exactly one subscribe call per characteristic on the first `subscribe`,
none on the second, no unsubscribe while one callback remains, and
exactly one unsubscribe per characteristic when the last callback is
removed. -/
theorem c4_subscription_refcount (cb1 cb2 : ℕ) (hne : cb1 ≠ cb2) (addr : String)
    (st3 : SHT3x.State) (ops : List SubOp) (h3 : SHT3x.SubInv st3)
    (stc : SHTC1.State) (opsc : List SubOp) (hc : SHTC1.SubInv stc) :
    SHT3x.SubInv (SHT3x.runSub st3 ops) ∧
    SHTC1.SubInv (SHTC1.runSub stc opsc) ∧
    (let s0 : SHT3x.State := ⟨addr, true, [], RhtBuf.empty, false, false⟩
     let r1 := SHT3x.subscribe okBeh s0 cb1
     let r2 := SHT3x.subscribe okBeh r1.st cb2
     let r3 := SHT3x.unsubscribe okBeh r2.st (some cb1)
     let r4 := SHT3x.unsubscribe okBeh r3.st (some cb2)
     r1.calls = [TCall.subscribeSrv SHT3x.TEMP_NOTI_UUID,
                 TCall.subscribeSrv SHT3x.HUMI_NOTI_UUID] ∧
     r2.calls = [] ∧ r3.calls = [] ∧
     r4.calls = [TCall.unsubscribeSrv SHT3x.TEMP_NOTI_UUID,
                 TCall.unsubscribeSrv SHT3x.HUMI_NOTI_UUID]) ∧
    (let s0 : SHTC1.State := ⟨addr, true, [], false⟩
     let r1 := SHTC1.subscribe okBeh s0 cb1
     let r2 := SHTC1.subscribe okBeh r1.st cb2
     let r3 := SHTC1.unsubscribe okBeh r2.st (some cb1)
     let r4 := SHTC1.unsubscribe okBeh r3.st (some cb2)
     r1.calls = [TCall.subscribeSrv SHTC1.RHT_CHAR_UUID] ∧
     r2.calls = [] ∧ r3.calls = [] ∧
     r4.calls = [TCall.unsubscribeSrv SHTC1.RHT_CHAR_UUID]) := by
  refine ⟨?_, ?_, ?_, ?_⟩
  · clear hc hne
    induction ops generalizing st3 with
    | nil => exact h3
    | cons op rest ih => exact ih _ (sht3x_subInv_stepSub st3 op h3)
  · clear h3 hne
    induction opsc generalizing stc with
    | nil => exact hc
    | cons op rest ih => exact ih _ (shtc1_subInv_stepSub stc op hc)
  · have h1 : SHT3x.subscribe okBeh ⟨addr, true, [], RhtBuf.empty, false, false⟩ cb1
        = ⟨⟨addr, true, [cb1], RhtBuf.empty, true, true⟩,
           [TCall.subscribeSrv SHT3x.TEMP_NOTI_UUID,
            TCall.subscribeSrv SHT3x.HUMI_NOTI_UUID], none⟩ := by
      simp [SHT3x.subscribe, okBeh]
    have h2 : SHT3x.subscribe okBeh ⟨addr, true, [cb1], RhtBuf.empty, true, true⟩ cb2
        = ⟨⟨addr, true, [cb1, cb2], RhtBuf.empty, true, true⟩, [], none⟩ := by
      simp [SHT3x.subscribe, okBeh, hne.symm]
    have h3s : SHT3x.unsubscribe okBeh ⟨addr, true, [cb1, cb2], RhtBuf.empty, true, true⟩
        (some cb1)
        = ⟨⟨addr, true, [cb2], RhtBuf.empty, true, true⟩, [], none⟩ := by
      simp [SHT3x.unsubscribe, okBeh, List.erase_cons_head]
    have h4 : SHT3x.unsubscribe okBeh ⟨addr, true, [cb2], RhtBuf.empty, true, true⟩
        (some cb2)
        = ⟨⟨addr, true, [], RhtBuf.empty, false, false⟩,
           [TCall.unsubscribeSrv SHT3x.TEMP_NOTI_UUID,
            TCall.unsubscribeSrv SHT3x.HUMI_NOTI_UUID], none⟩ := by
      simp [SHT3x.unsubscribe, okBeh]
    simp only [h1, h2, h3s, h4]
    exact ⟨trivial, trivial, trivial, trivial⟩
  · have h1 : SHTC1.subscribe okBeh ⟨addr, true, [], false⟩ cb1
        = ⟨⟨addr, true, [cb1], true⟩, [TCall.subscribeSrv SHTC1.RHT_CHAR_UUID], none⟩ := by
      simp [SHTC1.subscribe, okBeh]
    have h2 : SHTC1.subscribe okBeh ⟨addr, true, [cb1], true⟩ cb2
        = ⟨⟨addr, true, [cb1, cb2], true⟩, [], none⟩ := by
      simp [SHTC1.subscribe, okBeh, hne.symm]
    have h3s : SHTC1.unsubscribe okBeh ⟨addr, true, [cb1, cb2], true⟩ (some cb1)
        = ⟨⟨addr, true, [cb2], true⟩, [], none⟩ := by
      simp [SHTC1.unsubscribe, okBeh, List.erase_cons_head]
    have h4 : SHTC1.unsubscribe okBeh ⟨addr, true, [cb2], true⟩ (some cb2)
        = ⟨⟨addr, true, [], false⟩, [TCall.unsubscribeSrv SHTC1.RHT_CHAR_UUID], none⟩ := by
      simp [SHTC1.unsubscribe, okBeh]
    simp only [h1, h2, h3s, h4]
    exact ⟨trivial, trivial, trivial, trivial⟩

/-- Witness for C4: callbacks 0 and 1 on freshly connected states, with a
nonempty session. -/
theorem c4_subscription_refcount_witness :
    ((0 : ℕ) ≠ 1 ∧
     SHT3x.SubInv ⟨"aa", true, [], RhtBuf.empty, false, false⟩ ∧
     SHTC1.SubInv ⟨"aa", true, [], false⟩) ∧
    (SHT3x.SubInv (SHT3x.runSub ⟨"aa", true, [], RhtBuf.empty, false, false⟩
        [SubOp.sub 5, SubOp.unsub (some 5)]) ∧
     SHTC1.SubInv (SHTC1.runSub ⟨"aa", true, [], false⟩
        [SubOp.sub 5, SubOp.unsub (some 5)])) :=
  ⟨⟨by decide, ⟨rfl, rfl, rfl⟩, ⟨rfl, rfl⟩⟩,
   (c4_subscription_refcount 0 1 (by decide) "aa"
     ⟨"aa", true, [], RhtBuf.empty, false, false⟩ [SubOp.sub 5, SubOp.unsub (some 5)]
     ⟨rfl, rfl, rfl⟩ ⟨"aa", true, [], false⟩ [SubOp.sub 5, SubOp.unsub (some 5)]
     ⟨rfl, rfl⟩).1,
   (c4_subscription_refcount 0 1 (by decide) "aa"
     ⟨"aa", true, [], RhtBuf.empty, false, false⟩ [SubOp.sub 5, SubOp.unsub (some 5)]
     ⟨rfl, rfl, rfl⟩ ⟨"aa", true, [], false⟩ [SubOp.sub 5, SubOp.unsub (some 5)]
     ⟨rfl, rfl⟩).2.1⟩

/-- The callback list is empty after `disconnect`, whatever the transport
does (modern variant). -/
lemma sht3x_disconnect_callbacks (beh : Beh) (st : SHT3x.State) :
    (SHT3x.disconnect beh st).st.rht_callbacks = [] := by
  obtain ⟨addr, con, cbs, buf, sT, sH⟩ := st
  cases con <;> cases cbs <;>
    · simp only [SHT3x.disconnect, SHT3x.unsubscribe]
      split_ifs <;> simp_all

/-- The callback list is empty after `disconnect`, whatever the transport
does (legacy variant). -/
lemma shtc1_disconnect_callbacks (beh : Beh) (st : SHTC1.State) :
    (SHTC1.disconnect beh st).st.rht_callbacks = [] := by
  obtain ⟨addr, con, cbs, sR⟩ := st
  cases con <;> cases cbs <;>
    · simp only [SHTC1.disconnect, SHTC1.unsubscribe]
      split_ifs <;> simp_all

/-- Every public operation keeps the callback list duplicate-free
(modern variant). -/
lemma sht3x_nodup_step (beh : Beh) (st : SHT3x.State) (op : GOp)
    (h : st.rht_callbacks.Nodup) : (SHT3x.step beh st op).rht_callbacks.Nodup := by
  cases op with
  | connectOp =>
    simp only [SHT3x.step, SHT3x.connect]
    split_ifs <;> simp_all
  | disconnectOp =>
    rw [SHT3x.step, sht3x_disconnect_callbacks]
    exact List.nodup_nil
  | subscribeOp cb =>
    by_cases hmem : cb ∈ st.rht_callbacks
    · simp only [SHT3x.step, SHT3x.subscribe, hmem, if_true]
      split_ifs <;> simp_all
    · have hcat : (st.rht_callbacks ++ [cb]).Nodup := by
        rw [← List.concat_eq_append]
        exact List.Nodup.concat hmem h
      simp only [SHT3x.step, SHT3x.subscribe, hmem, if_false]
      split_ifs <;> simp_all
  | unsubscribeOp cb? =>
    cases cb? with
    | none =>
      simp only [SHT3x.step, SHT3x.unsubscribe]
      split_ifs <;> simp_all
    | some cb =>
      by_cases hmem : cb ∈ st.rht_callbacks
      · have herase : (st.rht_callbacks.erase cb).Nodup := h.erase cb
        simp only [SHT3x.step, SHT3x.unsubscribe, hmem, if_true]
        split_ifs <;> simp_all
      · simp only [SHT3x.step, SHT3x.unsubscribe, hmem, if_false]
        split_ifs <;> simp_all

/-- Every public operation keeps the callback list duplicate-free
(legacy variant). -/
lemma shtc1_nodup_step (beh : Beh) (st : SHTC1.State) (op : GOp)
    (h : st.rht_callbacks.Nodup) : (SHTC1.step beh st op).rht_callbacks.Nodup := by
  cases op with
  | connectOp =>
    simp only [SHTC1.step, SHTC1.connect]
    split_ifs <;> simp_all
  | disconnectOp =>
    rw [SHTC1.step, shtc1_disconnect_callbacks]
    exact List.nodup_nil
  | subscribeOp cb =>
    by_cases hmem : cb ∈ st.rht_callbacks
    · simp only [SHTC1.step, SHTC1.subscribe, hmem, if_true]
      split_ifs <;> simp_all
    · have hcat : (st.rht_callbacks ++ [cb]).Nodup := by
        rw [← List.concat_eq_append]
        exact List.Nodup.concat hmem h
      simp only [SHTC1.step, SHTC1.subscribe, hmem, if_false]
      split_ifs <;> simp_all
  | unsubscribeOp cb? =>
    cases cb? with
    | none =>
      simp only [SHTC1.step, SHTC1.unsubscribe]
      split_ifs <;> simp_all
    | some cb =>
      by_cases hmem : cb ∈ st.rht_callbacks
      · have herase : (st.rht_callbacks.erase cb).Nodup := h.erase cb
        simp only [SHTC1.step, SHTC1.unsubscribe, hmem, if_true]
        split_ifs <;> simp_all
      · simp only [SHTC1.step, SHTC1.unsubscribe, hmem, if_false]
        split_ifs <;> simp_all

/-- Claim C9: for both variants and every sequence of public operations
after construction, the callback list never contains the same callback
twice, and `subscribe` with an already-registered callback leaves the
callback list unchanged. -/
theorem c9_no_duplicate_callbacks (beh : Beh) (addr : String) (ops : List GOp)
    (st3 : SHT3x.State) (stc : SHTC1.State) (cb : ℕ)
    (hm3 : cb ∈ st3.rht_callbacks) (hmc : cb ∈ stc.rht_callbacks) :
    (SHT3x.run beh (SHT3x.init addr) ops).rht_callbacks.Nodup ∧
    (SHTC1.run beh (SHTC1.init addr) ops).rht_callbacks.Nodup ∧
    (SHT3x.subscribe beh st3 cb).st.rht_callbacks = st3.rht_callbacks ∧
    (SHTC1.subscribe beh stc cb).st.rht_callbacks = stc.rht_callbacks := by
  refine ⟨?_, ?_, ?_, ?_⟩
  · have h0 : (SHT3x.init addr).rht_callbacks.Nodup := List.nodup_nil
    revert h0
    generalize SHT3x.init addr = st
    induction ops generalizing st with
    | nil => exact fun h => h
    | cons op rest ih => exact fun h => ih _ (sht3x_nodup_step beh st op h)
  · have h0 : (SHTC1.init addr).rht_callbacks.Nodup := List.nodup_nil
    revert h0
    generalize SHTC1.init addr = st
    induction ops generalizing st with
    | nil => exact fun h => h
    | cons op rest ih => exact fun h => ih _ (shtc1_nodup_step beh st op h)
  · simp only [SHT3x.subscribe, hm3, if_true]
    split_ifs <;> rfl
  · simp only [SHTC1.subscribe, hmc, if_true]
    split_ifs <;> rfl

/-- Witness for C9: callback 4 is registered on both concrete states. -/
theorem c9_no_duplicate_callbacks_witness :
    (4 ∈ (⟨"aa", true, [4], RhtBuf.empty, true, true⟩ : SHT3x.State).rht_callbacks ∧
     4 ∈ (⟨"bb", true, [4], true⟩ : SHTC1.State).rht_callbacks) ∧
    ((SHT3x.run okBeh (SHT3x.init "aa")
        [GOp.connectOp, GOp.subscribeOp 3, GOp.subscribeOp 3]).rht_callbacks.Nodup ∧
     (SHTC1.run okBeh (SHTC1.init "aa")
        [GOp.connectOp, GOp.subscribeOp 3, GOp.subscribeOp 3]).rht_callbacks.Nodup ∧
     (SHT3x.subscribe okBeh ⟨"aa", true, [4], RhtBuf.empty, true, true⟩ 4).st.rht_callbacks
       = (⟨"aa", true, [4], RhtBuf.empty, true, true⟩ : SHT3x.State).rht_callbacks ∧
     (SHTC1.subscribe okBeh ⟨"bb", true, [4], true⟩ 4).st.rht_callbacks
       = (⟨"bb", true, [4], true⟩ : SHTC1.State).rht_callbacks) :=
  ⟨⟨by decide, by decide⟩,
   c9_no_duplicate_callbacks okBeh "aa"
     [GOp.connectOp, GOp.subscribeOp 3, GOp.subscribeOp 3]
     ⟨"aa", true, [4], RhtBuf.empty, true, true⟩ ⟨"bb", true, [4], true⟩ 4
     (by decide) (by decide)⟩

/-- Claim C3 (counterexample): with a connected modern gadget holding one
registered callback, if the transport unsubscribe raises,
`disconnect()` propagates the exception and the gadget is still
connected afterwards — local teardown is not unconditional. -/
theorem c3_disconnect_counterexample :
    (SHT3x.disconnect failingUnsubBeh ⟨"cc:bb:aa", true, [7], RhtBuf.empty, true, true⟩).st.con
      = true ∧
    (SHT3x.disconnect failingUnsubBeh ⟨"cc:bb:aa", true, [7], RhtBuf.empty, true, true⟩).err
      = some PyErr.btleError := ⟨rfl, rfl⟩

/-- Claim C3 (amended): for both variants, whenever the underlying
transport unsubscribe and disconnect calls succeed, `disconnect()`
returns normally leaving `connected == false` and an empty callback
list, from any state; when an underlying call raises, the exception
propagates out of `disconnect` and the gadget can remain connected. -/
theorem c3_disconnect_teardown (st3 : SHT3x.State) (stc : SHTC1.State) :
    ((SHT3x.disconnect okBeh st3).st.con = false ∧
     (SHT3x.disconnect okBeh st3).st.rht_callbacks = [] ∧
     (SHT3x.disconnect okBeh st3).err = none) ∧
    ((SHTC1.disconnect okBeh stc).st.con = false ∧
     (SHTC1.disconnect okBeh stc).st.rht_callbacks = [] ∧
     (SHTC1.disconnect okBeh stc).err = none) := by
  constructor
  · obtain ⟨addr, con, cbs, buf, sT, sH⟩ := st3
    cases con <;> cases cbs <;>
      simp [SHT3x.disconnect, SHT3x.unsubscribe, okBeh]
  · obtain ⟨addr, con, cbs, sR⟩ := stc
    cases con <;> cases cbs <;>
      simp [SHTC1.disconnect, SHTC1.unsubscribe, okBeh]

/-- Claim C6 (counterexample): a disconnected modern gadget with a stale
partial-fusion buffer (`{'time': 1, 'temperature': 10}`) still has that
buffer after `connect()` — `connect` does not clear `_current_rht`. -/
theorem c6_connect_counterexample :
    (SHT3x.connect ⟨"cc:bb:aa", false, [], ⟨some 1, some 10, none, none⟩, false, false⟩).st.current_rht
      ≠ RhtBuf.empty := by
  simp [SHT3x.connect, RhtBuf.empty]

/-- Claim C6 (amended): for both variants, `connect()` is a no-op when
already connected; when not connected it opens the transport connection
to the gadget's address with the variant's fixed address type
(`'random'` for the modern variant, `'public'` for the legacy one) and
resets the callback list to empty; the partial-fusion buffer is left
unchanged (it is cleared when the first callback subscribes, not here). -/
theorem c6_connect_behaviour (st3 st3c : SHT3x.State) (stc stcc : SHTC1.State)
    (h3 : st3.con = false) (h3c : st3c.con = true)
    (hc : stc.con = false) (hcc : stcc.con = true) :
    SHT3x.connect st3c = ⟨st3c, [], none⟩ ∧
    SHT3x.connect st3
      = ⟨{st3 with rht_callbacks := [], con := true},
         [TCall.connectT st3.address HumiGadget.ADDRESS_TYPE], none⟩ ∧
    (SHT3x.connect st3).st.current_rht = st3.current_rht ∧
    HumiGadget.ADDRESS_TYPE = "random" ∧
    SHTC1.connect stcc = ⟨stcc, [], none⟩ ∧
    SHTC1.connect stc
      = ⟨{stc with rht_callbacks := [], con := true},
         [TCall.connectT stc.address SHTC1.ADDRESS_TYPE], none⟩ ∧
    SHTC1.ADDRESS_TYPE = "public" := by
  refine ⟨?_, ?_, ?_, rfl, ?_, ?_, rfl⟩ <;>
    simp [SHT3x.connect, SHTC1.connect, h3, h3c, hc, hcc]

/-- Witness for C6 at concrete connected and disconnected states. -/
theorem c6_connect_behaviour_witness :
    ((SHT3x.init "aa").con = false ∧
     (⟨"aa", true, [], RhtBuf.empty, false, false⟩ : SHT3x.State).con = true ∧
     (SHTC1.init "bb").con = false ∧
     (⟨"bb", true, [], false⟩ : SHTC1.State).con = true) ∧
    (SHT3x.connect (SHT3x.init "aa")
       = ⟨{SHT3x.init "aa" with rht_callbacks := [], con := true},
          [TCall.connectT (SHT3x.init "aa").address HumiGadget.ADDRESS_TYPE], none⟩ ∧
     SHTC1.connect (SHTC1.init "bb")
       = ⟨{SHTC1.init "bb" with rht_callbacks := [], con := true},
          [TCall.connectT (SHTC1.init "bb").address SHTC1.ADDRESS_TYPE], none⟩) := by
  have h := c6_connect_behaviour (SHT3x.init "aa")
    ⟨"aa", true, [], RhtBuf.empty, false, false⟩ (SHTC1.init "bb")
    ⟨"bb", true, [], false⟩ rfl rfl rfl rfl
  exact ⟨⟨rfl, rfl, rfl, rfl⟩, h.2.1, h.2.2.2.2.2.1⟩

/-- Claim C10: for both variants, `unsubscribe(cb)` with a callback that
is not registered is a silent no-op when the callback list is empty
(early return), but raises `ValueError` from `list.remove` when other
callbacks are registered; in the raising case no transport unsubscribe
call is attempted and the registered callbacks are untouched. -/
theorem c10_unsubscribe_unregistered (beh : Beh) (st3e st3 : SHT3x.State)
    (stce stc : SHTC1.State) (cb : ℕ)
    (he3 : st3e.rht_callbacks = []) (hne3 : st3.rht_callbacks ≠ [])
    (h3 : cb ∉ st3.rht_callbacks)
    (hec : stce.rht_callbacks = []) (hnec : stc.rht_callbacks ≠ [])
    (hc : cb ∉ stc.rht_callbacks) :
    SHT3x.unsubscribe beh st3e (some cb) = ⟨st3e, [], none⟩ ∧
    SHT3x.unsubscribe beh st3 (some cb) = ⟨st3, [], some PyErr.valueError⟩ ∧
    SHTC1.unsubscribe beh stce (some cb) = ⟨stce, [], none⟩ ∧
    SHTC1.unsubscribe beh stc (some cb) = ⟨stc, [], some PyErr.valueError⟩ := by
  refine ⟨?_, ?_, ?_, ?_⟩ <;>
    simp [SHT3x.unsubscribe, SHTC1.unsubscribe, List.isEmpty_iff,
          he3, hne3, h3, hec, hnec, hc]

/-- Witness for C10: callback 2 is not registered; the list `[1]` is
nonempty, the list `[]` is empty. -/
theorem c10_unsubscribe_unregistered_witness :
    ((SHT3x.init "aa").rht_callbacks = [] ∧
     (⟨"aa", true, [1], RhtBuf.empty, true, true⟩ : SHT3x.State).rht_callbacks ≠ [] ∧
     2 ∉ (⟨"aa", true, [1], RhtBuf.empty, true, true⟩ : SHT3x.State).rht_callbacks ∧
     (SHTC1.init "bb").rht_callbacks = [] ∧
     (⟨"bb", true, [1], true⟩ : SHTC1.State).rht_callbacks ≠ [] ∧
     2 ∉ (⟨"bb", true, [1], true⟩ : SHTC1.State).rht_callbacks) ∧
    (SHT3x.unsubscribe okBeh (SHT3x.init "aa") (some 2) = ⟨SHT3x.init "aa", [], none⟩ ∧
     SHT3x.unsubscribe okBeh ⟨"aa", true, [1], RhtBuf.empty, true, true⟩ (some 2)
       = ⟨⟨"aa", true, [1], RhtBuf.empty, true, true⟩, [], some PyErr.valueError⟩ ∧
     SHTC1.unsubscribe okBeh (SHTC1.init "bb") (some 2) = ⟨SHTC1.init "bb", [], none⟩ ∧
     SHTC1.unsubscribe okBeh ⟨"bb", true, [1], true⟩ (some 2)
       = ⟨⟨"bb", true, [1], true⟩, [], some PyErr.valueError⟩) :=
  ⟨⟨rfl, by decide, by decide, rfl, by decide, by decide⟩,
   c10_unsubscribe_unregistered okBeh (SHT3x.init "aa")
     ⟨"aa", true, [1], RhtBuf.empty, true, true⟩ (SHTC1.init "bb")
     ⟨"bb", true, [1], true⟩ 2 rfl (by decide) (by decide) rfl (by decide) (by decide)⟩

/-- Witness for C8 on the buffer `e8 03 00 00` (= 1000 ms). -/
theorem c8_int32_roundtrip_witness :
    (232 < 256 ∧ 3 < 256 ∧ 0 < 256 ∧ 0 < 256) ∧
    encodeInt32le (decodeInt32le 232 3 0 0) = (232, 3, 0, 0) :=
  ⟨by norm_num,
   c8_int32_roundtrip 232 3 0 0 (by norm_num) (by norm_num) (by norm_num) (by norm_num)⟩
